import Mathlib

/-
Verification development for the TexTile backend prerendering cache
(src/app/prerendering.py) and its batch generation pipeline
(src/app/cli.py).  The code is shallowly embedded: Python strings become
Lean Strings, optional request parameters become Option String (with
Python truthiness modelled explicitly), the on-disk cache becomes an
explicit map from paths to file data, and the external collaborators
(hashlib's SHA-1, the dapytains passage extractor, the XSLT
transformation engine) become function parameters.
-/

set_option autoImplicit false
set_option maxHeartbeats 1000000

namespace TexTile

/-- Python truthiness of an optional string parameter (flask request
arguments): None and the empty string are falsy, every other string is
truthy. -/
def pyTruthy : Option String → Bool
  | none => false
  | some s => decide (s ≠ "")

/-- Python `a or d` for an optional string `a` with string default `d`
(prerendering.py line 190 `tree or collection.default_tree`, line 212
`media or DEFAULT_MEDIA_TYPE`). -/
def pyOr (a : Option String) (d : String) : String :=
  if pyTruthy a then a.getD "" else d

/-- prerendering.py line 39: the default media type (base XML). -/
def DEFAULT_MEDIA_TYPE : String := "application/xml"

/-- Model of hashlib's hexadecimal SHA-1 digest: an arbitrary function
producing 40-character digests.  The cache layer never inspects a digest
beyond slicing it, so only the length is fixed; collision questions are
phrased as explicit hypotheses on this function. -/
structure HashModel where
  fullSha : String → String
  len40 : ∀ s, (fullSha s).length = 40

/-- prerendering.py lines 56-59 (short_sha, default length 8): the first
8 characters of the SHA-1 hex digest.  safe_filename (lines 61-64) is
the same function. -/
def short_sha (H : HashModel) (s : String) : String :=
  String.mk ((H.fullSha s).data.take 8)

/-- prerendering.py lines 66-71 (sha_subfolders): the LEVELS slices of
CHARS_PER_LEVEL digest characters, followed by the full digest, as path
components (os.path.join). -/
def sha_subfolders (H : HashModel) (levels cpl : Nat) (identifier : String) : List String :=
  ((List.range levels).map
    (fun i => String.mk (((H.fullSha identifier).data.drop (i * cpl)).take cpl)))
  ++ [H.fullSha identifier]

/-- Python str.join: sep.join(parts). -/
def pyJoin (sep : String) : List String → String
  | [] => ""
  | [x] => x
  | x :: y :: xs => x ++ sep ++ pyJoin sep (y :: xs)

/-- prerendering.py lines 73-81 (get_cache_path): ROOT / sha_subfolders /
filename, where the filename joins the short hashes of tree, ref, the
optional range end (appended only when `end` is truthy, line 77) and
media with "__", plus the ".prerender" extension.  A filesystem path is
modelled as its list of components. -/
def get_cache_path (H : HashModel) (root : List String) (levels cpl : Nat)
    (identifier ref : String) (endOpt : Option String) (media tree : String) : List String :=
  let filename_parts := [short_sha H tree, short_sha H ref]
    ++ (if pyTruthy endOpt then [short_sha H (endOpt.getD "")] else [])
    ++ [short_sha H media]
  (root ++ sha_subfolders H levels cpl identifier)
    ++ [pyJoin "__" filename_parts ++ ".prerender"]

/-- Parse status of the bytes held by one cache file: unreadable (an open
or read raises IOError), not valid JSON (json.load raises
JSONDecodeError; this also covers truncated or partially written
envelopes), valid JSON whose top-level value is not an object, or a JSON
object whose "content" field is present or absent. -/
inductive FileData where
  | unreadable
  | notJson
  | jsonNonObject
  | jsonObject (content : Option String)
deriving DecidableEq, Repr

/-- The cache directory tree: a map from paths to the file stored there
(none = no file at that path). -/
abbrev Disk := List String → Option FileData

/-- Python exceptions that the cache layer can let escape. -/
inductive PyError where
  | ioError
  | attributeError
  | keyError
deriving DecidableEq, Repr

def updateDisk (d : Disk) (p : List String) (f : FileData) : Disk :=
  fun q => if q = p then some f else d q

/-- prerendering.py lines 83-101 (get_cache): returns None when the file
is absent; catches JSONDecodeError and IOError and returns None; returns
data.get("content") otherwise — which is None when the "content" key is
absent, and the stored string (even the empty one) when present.  When
json.load produces a non-object, data.get raises an AttributeError that
the except clause on line 98 does not catch. -/
def get_cache (H : HashModel) (root : List String) (levels cpl : Nat) (disk : Disk)
    (identifier ref : String) (endOpt : Option String) (media tree : String) :
    Except PyError (Option String) :=
  match disk (get_cache_path H root levels cpl identifier ref endOpt media tree) with
  | none => .ok none
  | some .unreadable => .ok none
  | some .notJson => .ok none
  | some .jsonNonObject => .error .attributeError
  | some (.jsonObject c) => .ok c

/-- Which I/O operations fail during one save_cache call: the
path.parent.mkdir call (line 106), the open of the target file, or the
json.dump into the already-opened (hence already truncated) file. -/
structure IOEnv where
  mkdirFails : Bool
  openFails : Bool
  writeFails : Bool
deriving DecidableEq

/-- prerendering.py lines 103-115 (save_cache): mkdir of the parent
directories happens before the try block, so a failure there escapes as
an exception; an IOError raised by the open is caught (disk unchanged);
an IOError raised during json.dump is caught, leaving the truncated,
partially written file behind (open with mode "w" truncates first); on
success the envelope json with the single "content" field is stored. -/
def save_cache (H : HashModel) (root : List String) (levels cpl : Nat) (env : IOEnv)
    (disk : Disk) (identifier ref : String) (endOpt : Option String) (media tree : String)
    (content : String) : Except PyError Disk :=
  let path := get_cache_path H root levels cpl identifier ref endOpt media tree
  if env.mkdirFails then .error .ioError
  else if env.openFails then .ok disk
  else if env.writeFails then .ok (updateDisk disk path .notJson)
  else .ok (updateDisk disk path (.jsonObject (some content)))

/-- The sequence of disk states a concurrent reader can observe during
one successful save_cache call: open(path, "w") first truncates the
file in place (an empty or partially written file is not valid JSON),
then json.dump completes the envelope.  There is no temporary file and
no rename in the source. -/
def save_cache_states (H : HashModel) (root : List String) (levels cpl : Nat)
    (disk : Disk) (identifier ref : String) (endOpt : Option String) (media tree : String)
    (content : String) : List Disk :=
  let path := get_cache_path H root levels cpl identifier ref endOpt media tree
  [updateDisk disk path .notJson, updateDisk disk path (.jsonObject (some content))]

/-- The logical identity of one cache artifact, i.e. the argument tuple
shared by get_cache_path, get_cache and save_cache: (document identifier,
reference, optional range end, media type, navigation tree). -/
structure CacheKey where
  identifier : String
  ref : String
  rangeEnd : Option String
  media : String
  tree : String
deriving DecidableEq, Repr

/-- A path for a whole CacheKey (get_cache_path with its five arguments
bundled). -/
def pathOfKey (H : HashModel) (root : List String) (levels cpl : Nat) (k : CacheKey) :
    List String :=
  get_cache_path H root levels cpl k.identifier k.ref k.rangeEnd k.media k.tree

/-- Key-level view of the cache contents used by the read path and the
batch generator: the string stored (via the single-field envelope) under
each key, none when no entry exists.  This is what the file layer
provides when no I/O failure and no corruption occur; see
get_cache_of_save_cache below for the correspondence. -/
abbrev Store := CacheKey → Option String

/-- Key-level cache lookup: DiskPrerenderedCache.get_cache returns the
stored content (even when it is the empty string) and None when the
entry is absent. -/
def getCacheK (s : Store) (k : CacheKey) : Option String := s k

/-- Key-level cache save: DiskPrerenderedCache.save_cache stores the
content under the derived key. -/
def saveCacheK (s : Store) (k : CacheKey) (content : String) : Store :=
  fun q => if q = k then some content else s q

/-- The relational row for one document (dapytains Collection): its
identifier, default navigation tree, file path and the content of the
file at that path. -/
structure CollectionRec where
  identifier : String
  default_tree : String
  filepath : String
  fileContent : String
deriving DecidableEq

/-- The navigation row for one document: references maps each tree name
to the list of reference identifiers of its citable units (the
"identifier" field of each reference descriptor), and paths maps each
tree name to the set (as a list) of valid reference strings (the keys of
nav.paths[tree]). -/
structure NavigationRec where
  references : List (String × List String)
  paths : List (String × List String)
deriving DecidableEq

/-- Python dict lookup d.get(k) over an association list. -/
def alistFind {α : Type} (l : List (String × α)) (k : String) : Option α :=
  (l.find? (fun p => p.1 == k)).map (fun p => p.2)

/-- transformer.mapping.get(media, media): the response mime type. -/
def mapGetD (mapping : List (String × String)) (media : String) : String :=
  (alistFind mapping media).getD media

/-- The external passage extraction engine (get_xml_passage_as_string,
prerendering.py lines 150-156, which opens collection.filepath and runs
Document.get_passage): filepath → ref → end → tree → XML string. -/
abbrev ExtractFun := String → String → Option String → String → String

/-- The external transformation engine (get_transformed /
Transformer.transform): media type → passage XML → transformed
content. -/
abbrev TransformFun := String → String → String

/-- Result of get_xml_passage_or_cache together with the observable
effects performed: number of extraction-engine calls and of cache
lookups. -/
structure PassageResult where
  passage : String
  extractCalls : Nat
  cacheReads : Nat
deriving DecidableEq, Repr

/-- prerendering.py lines 161-174 (get_xml_passage_or_cache): when the
disk cache is enabled, look the base-XML entry up and return it when it
is truthy; otherwise (and when the cache is disabled) extract the
passage and return it.  Nothing is written to the cache here. -/
def get_xml_passage_or_cache (useDiskCache : Bool) (extractF : ExtractFun) (store : Store)
    (col : CollectionRec) (ref : String) (endOpt : Option String) (tree : String) :
    PassageResult :=
  if useDiskCache then
    if pyTruthy (getCacheK store ⟨col.identifier, ref, endOpt, DEFAULT_MEDIA_TYPE, tree⟩) then
      ⟨(getCacheK store ⟨col.identifier, ref, endOpt, DEFAULT_MEDIA_TYPE, tree⟩).getD "", 0, 1⟩
    else ⟨extractF col.filepath ref endOpt tree, 1, 1⟩
  else ⟨extractF col.filepath ref endOpt tree, 1, 0⟩

/-- Outcome of custom_document_view: the flask response (or the escaped
exception), plus the cache state after the call and the counts of
observable effects. -/
inductive ViewResult where
  | ok (status : Nat) (body : String) (mime : String)
  | clientError (msg : String) (code : Nat)
  | pyError (e : PyError)
deriving DecidableEq, Repr

def isClientError : ViewResult → Bool
  | .clientError _ _ => true
  | _ => false

def isPyError : ViewResult → Bool
  | .pyError _ => true
  | _ => false

structure ViewOutcome where
  result : ViewResult
  store : Store
  extractCalls : Nat
  transformCalls : Nat
  cacheReads : Nat
  cacheWrites : Nat

/-- prerendering.py lines 178-240 (custom_document_view), with the
request parameters resource/ref/start/end/tree/media as optional
strings, the database rows and the external engines as parameters, and
USE_DISK_CACHE as the boolean it is parsed to on lines 163 and 215.
msg_4xx from dapytains is modelled as the clientError result with its
code argument (404 when the call site leaves the default). -/
def custom_document_view (useDiskCache : Bool) (extractF : ExtractFun)
    (transformF : TransformFun) (mapping : List (String × String))
    (colls : List CollectionRec) (navs : List (String × NavigationRec)) (store : Store)
    (resource ref start endOpt tree media : Option String) : ViewOutcome :=
  if ¬ pyTruthy resource then
    ⟨.clientError "Resource parameter was not provided" 404, store, 0, 0, 0, 0⟩
  else
    match colls.find? (fun c => c.identifier == resource.getD "") with
    | none => ⟨.clientError "Unknown resource" 404, store, 0, 0, 0, 0⟩
    | some col =>
      match alistFind navs col.identifier with
      | none => ⟨.clientError "The resource does not support navigation" 404, store, 0, 0, 0, 0⟩
      | some nav =>
        if (pyTruthy ref || pyTruthy start || pyTruthy endOpt)
            && (alistFind nav.references (pyOr tree col.default_tree)).isNone then
          ⟨.clientError "Unknown tree" 404, store, 0, 0, 0, 0⟩
        else if (pyTruthy ref || pyTruthy start || pyTruthy endOpt)
            && (pyTruthy ref && (pyTruthy start || pyTruthy endOpt)) then
          ⟨.clientError "You cannot provide a ref parameter as well as start or end" 400,
            store, 0, 0, 0, 0⟩
        else if (pyTruthy ref || pyTruthy start || pyTruthy endOpt)
            && (!pyTruthy ref
                && ((pyTruthy start && !pyTruthy endOpt)
                    || (pyTruthy endOpt && !pyTruthy start))) then
          ⟨.clientError "Range is missing one of its parameters (start or end)" 400,
            store, 0, 0, 0, 0⟩
        else
          match alistFind nav.paths (pyOr tree col.default_tree) with
          | none => ⟨.pyError .keyError, store, 0, 0, 0, 0⟩
          | some paths =>
            if pyTruthy start && pyTruthy endOpt
                && (!paths.contains (start.getD "") || !paths.contains (endOpt.getD "")) then
              ⟨.clientError "Unknown start or end reference in the requested tree" 404,
                store, 0, 0, 0, 0⟩
            else if pyTruthy ref && !paths.contains (ref.getD "") then
              ⟨.clientError "Unknown reference in the requested tree" 404, store, 0, 0, 0, 0⟩
            else if !pyTruthy ref && !pyTruthy start then
              ⟨.ok 200 col.fileContent DEFAULT_MEDIA_TYPE, store, 0, 0, 0, 0⟩
            else
              if pyOr media DEFAULT_MEDIA_TYPE ≠ DEFAULT_MEDIA_TYPE then
                if useDiskCache then
                  if pyTruthy (getCacheK store ⟨col.identifier,
                      if pyTruthy ref then ref.getD "" else start.getD "", endOpt,
                      pyOr media DEFAULT_MEDIA_TYPE, pyOr tree col.default_tree⟩) then
                    ⟨.ok 200 ((getCacheK store ⟨col.identifier,
                        if pyTruthy ref then ref.getD "" else start.getD "", endOpt,
                        pyOr media DEFAULT_MEDIA_TYPE, pyOr tree col.default_tree⟩).getD "")
                      (mapGetD mapping (pyOr media DEFAULT_MEDIA_TYPE)), store, 0, 0, 1, 0⟩
                  else
                    ⟨.ok 200 (transformF (pyOr media DEFAULT_MEDIA_TYPE)
                        (get_xml_passage_or_cache true extractF store col
                          (if pyTruthy ref then ref.getD "" else start.getD "") endOpt
                          (pyOr tree col.default_tree)).passage)
                      (mapGetD mapping (pyOr media DEFAULT_MEDIA_TYPE)),
                      saveCacheK store ⟨col.identifier,
                        if pyTruthy ref then ref.getD "" else start.getD "", endOpt,
                        pyOr media DEFAULT_MEDIA_TYPE, pyOr tree col.default_tree⟩
                        (transformF (pyOr media DEFAULT_MEDIA_TYPE)
                          (get_xml_passage_or_cache true extractF store col
                            (if pyTruthy ref then ref.getD "" else start.getD "") endOpt
                            (pyOr tree col.default_tree)).passage),
                      (get_xml_passage_or_cache true extractF store col
                        (if pyTruthy ref then ref.getD "" else start.getD "") endOpt
                        (pyOr tree col.default_tree)).extractCalls, 1,
                      1 + (get_xml_passage_or_cache true extractF store col
                        (if pyTruthy ref then ref.getD "" else start.getD "") endOpt
                        (pyOr tree col.default_tree)).cacheReads, 1⟩
                else
                  ⟨.ok 200 (transformF (pyOr media DEFAULT_MEDIA_TYPE)
                      (get_xml_passage_or_cache false extractF store col
                        (if pyTruthy ref then ref.getD "" else start.getD "") endOpt
                        (pyOr tree col.default_tree)).passage)
                    (mapGetD mapping (pyOr media DEFAULT_MEDIA_TYPE)), store,
                    (get_xml_passage_or_cache false extractF store col
                      (if pyTruthy ref then ref.getD "" else start.getD "") endOpt
                      (pyOr tree col.default_tree)).extractCalls, 1,
                    (get_xml_passage_or_cache false extractF store col
                      (if pyTruthy ref then ref.getD "" else start.getD "") endOpt
                      (pyOr tree col.default_tree)).cacheReads, 0⟩
              else
                ⟨.ok 200 (get_xml_passage_or_cache useDiskCache extractF store col
                    (if pyTruthy ref then ref.getD "" else start.getD "") endOpt
                    (pyOr tree col.default_tree)).passage "application/xml", store,
                  (get_xml_passage_or_cache useDiskCache extractF store col
                    (if pyTruthy ref then ref.getD "" else start.getD "") endOpt
                    (pyOr tree col.default_tree)).extractCalls, 0,
                  (get_xml_passage_or_cache useDiskCache extractF store col
                    (if pyTruthy ref then ref.getD "" else start.getD "") endOpt
                    (pyOr tree col.default_tree)).cacheReads, 0⟩

/-- Observable events of one batch-generation run. -/
inductive BatchEvent where
  | extractEv (identifier ref tree : String)
  | transformEv (identifier ref tree media : String)
  | saveEv (key : CacheKey)
deriving DecidableEq, Repr

/-- State threaded through _prerender_collection: the cache, the
rendered_content counter, and the log of engine calls and saves. -/
structure BatchState where
  store : Store
  rendered : Nat
  events : List BatchEvent

/-- cli.py lines 125-141, the body of the media-type loop of
_prerender_collection: transform the base content and save it when the
cached value is None (the `is None` test on line 130) or force is
set. -/
def mediaStep (transformF : TransformFun) (col : CollectionRec) (force : Bool)
    (tree ref baseContent : String) (acc : BatchState) (m : String) : BatchState :=
  if (getCacheK acc.store ⟨col.identifier, ref, none, m, tree⟩).isNone || force then
    ⟨saveCacheK acc.store ⟨col.identifier, ref, none, m, tree⟩ (transformF m baseContent),
      acc.rendered + 1,
      acc.events ++ [.transformEv col.identifier ref tree m,
        .saveEv ⟨col.identifier, ref, none, m, tree⟩]⟩
  else acc

/-- cli.py lines 109-141, the body of the double loop of
_prerender_collection for one reference identifier: regenerate and save
the base passage when the cached value is falsy (the truthiness test on
line 115) or force is set, then run the media-type loop on the resulting
base content. -/
def prerenderRef (extractF : ExtractFun) (transformF : TransformFun) (col : CollectionRec)
    (mediaTypes : List String) (force : Bool) (tree ref : String) (st : BatchState) :
    BatchState :=
  if !pyTruthy (getCacheK st.store ⟨col.identifier, ref, none, DEFAULT_MEDIA_TYPE, tree⟩)
      || force then
    mediaTypes.foldl
      (mediaStep transformF col force tree ref (extractF col.filepath ref none tree))
      ⟨saveCacheK st.store ⟨col.identifier, ref, none, DEFAULT_MEDIA_TYPE, tree⟩
          (extractF col.filepath ref none tree), st.rendered + 1,
        st.events ++ [.extractEv col.identifier ref tree,
          .saveEv ⟨col.identifier, ref, none, DEFAULT_MEDIA_TYPE, tree⟩]⟩
  else
    mediaTypes.foldl
      (mediaStep transformF col force tree ref
        ((getCacheK st.store ⟨col.identifier, ref, none, DEFAULT_MEDIA_TYPE, tree⟩).getD ""))
      st

/-- cli.py lines 101-142 (_prerender_collection): iterate over every
(tree, references) pair of the document's navigation and over every
reference in it. -/
def prerenderCollection (extractF : ExtractFun) (transformF : TransformFun)
    (col : CollectionRec) (nav : NavigationRec) (mediaTypes : List String) (force : Bool)
    (st : BatchState) : BatchState :=
  nav.references.foldl (fun acc p =>
    p.2.foldl (fun acc2 r => prerenderRef extractF transformF col mediaTypes force p.1 r acc2)
      acc) st

/-- cli.py lines 149-177 (the prerender command): _prerender_collection
applied to every document of the corpus.  The worker pool dispatches the
documents to parallel processes; since distinct documents only ever
touch keys with their own identifiers, the shared cache state is
modelled by running them in sequence. -/
def prerenderCorpus (extractF : ExtractFun) (transformF : TransformFun)
    (docs : List (CollectionRec × NavigationRec)) (mediaTypes : List String) (force : Bool)
    (st : BatchState) : BatchState :=
  docs.foldl (fun acc d =>
    prerenderCollection extractF transformF d.1 d.2 mediaTypes force acc) st

/-- A corpus is fully warmed for a set of requested media types when
every (tree, reference) pair of every document has a base-XML entry that
the code counts as a hit (a non-empty stored string, the truthiness test
of cli.py line 115) and a stored entry for every requested media type
(the `is None` test of line 130). -/
def fullyWarmed (docs : List (CollectionRec × NavigationRec)) (mediaTypes : List String)
    (store : Store) : Prop :=
  ∀ d ∈ docs, ∀ p ∈ d.2.references, ∀ r ∈ p.2,
    pyTruthy (store ⟨d.1.identifier, r, none, DEFAULT_MEDIA_TYPE, p.1⟩) = true
    ∧ ∀ m ∈ mediaTypes, (store ⟨d.1.identifier, r, none, m, p.1⟩).isSome = true

/-- Python truthiness normalization of the optional range end: the empty
string behaves exactly like an absent end (line 77 `if end:`). -/
def normalizeEnd (e : Option String) : Option String :=
  if pyTruthy e then some (e.getD "") else none

/-- The leaf file name built by get_cache_path (lines 76-80), for a whole
key. -/
def cacheFileName (H : HashModel) (k : CacheKey) : String :=
  pyJoin "__" ([short_sha H k.tree, short_sha H k.ref]
    ++ (if pyTruthy k.rangeEnd then [short_sha H (k.rangeEnd.getD "")] else [])
    ++ [short_sha H k.media]) ++ ".prerender"

/-- One (tree, reference) pair is done for a force run: the base entry
holds the fresh extraction output and every requested media entry holds
the fresh transformation output. -/
def refDone (extractF : ExtractFun) (transformF : TransformFun) (col : CollectionRec)
    (mediaTypes : List String) (tree r : String) (st : BatchState) : Prop :=
  st.store ⟨col.identifier, r, none, DEFAULT_MEDIA_TYPE, tree⟩
      = some (extractF col.filepath r none tree)
    ∧ ∀ m ∈ mediaTypes, st.store ⟨col.identifier, r, none, m, tree⟩
      = some (transformF m (extractF col.filepath r none tree))

/-! Concrete instances used by witnesses and counterexamples. -/

/-- A concrete digest model: pad the input with zeros to 40 characters.
It is injective on the short inputs used below, so none of the concrete
statements relies on a digest collision. -/
def padHash : HashModel :=
  ⟨fun s => String.mk ((s.data ++ List.replicate 40 '0').take 40), by
    intro s
    show ((s.data ++ List.replicate 40 '0').take 40).length = 40
    rw [List.length_take, List.length_append, List.length_replicate]
    omega⟩

def emptyStore : Store := fun _ => none

def emptyDisk : Disk := fun _ => none

def colW : CollectionRec := ⟨"ms001", "default", "/data/ms001.xml", "FULLDOC"⟩

def navW : NavigationRec :=
  ⟨[("default", ["p1", "p2"])], [("default", ["p1", "p2"])]⟩

/-- A fully warmed store over colW/navW for the html media type. -/
def warmStoreW : Store := fun k =>
  if k.identifier = "ms001" ∧ k.rangeEnd = none ∧ k.tree = "default"
      ∧ (k.ref = "p1" ∨ k.ref = "p2")
      ∧ (k.media = "application/xml" ∨ k.media = "html") then
    some "WARM"
  else none

/-- A store holding the old content everywhere colW/navW can cache. -/
def oldStoreW : Store := fun k =>
  if k.identifier = "ms001" ∧ k.rangeEnd = none ∧ k.tree = "default"
      ∧ (k.ref = "p1" ∨ k.ref = "p2")
      ∧ (k.media = "application/xml" ∨ k.media = "html") then
    some "OLD"
  else none

/-- A concrete extraction engine for witnesses. -/
def extractW : ExtractFun := fun _ r _ t => "<p>" ++ r ++ "-" ++ t ++ "</p>"

/-- A concrete transformation engine for witnesses. -/
def transformW : TransformFun := fun m p => "<div>" ++ m ++ "-" ++ p ++ "</div>"

/-- The derived path used by the file-level counterexamples. -/
def cexPath : List String :=
  get_cache_path padHash [] 3 2 "doc1" "p1" none "application/xml" "default"

/-- A disk holding, at the counterexample key, a file whose content is
valid JSON but not a JSON object (for instance the three bytes of an
empty array). -/
def cexDiskNonObject : Disk :=
  fun q => if q = cexPath then some .jsonNonObject else none

/-- A disk holding a complete old envelope at the counterexample key. -/
def cexDiskOld : Disk :=
  fun q => if q = cexPath then some (.jsonObject (some "OLD")) else none

/-! Helper lemmas. -/

theorem str_data_append (a b : String) : (a ++ b).data = a.data ++ b.data := rfl

theorem str_ext {a b : String} (h : a.data = b.data) : a = b := by
  cases a; cases b; exact congrArg String.mk h

theorem str_length_append (a b : String) : (a ++ b).length = a.length + b.length :=
  List.length_append a.data b.data

theorem str_append_assoc (a b c : String) : a ++ b ++ c = a ++ (b ++ c) :=
  str_ext (by simp [str_data_append])

theorem str_append_inj {a b a' b' : String} (h : a ++ b = a' ++ b')
    (hl : a.length = a'.length) : a = a' ∧ b = b' := by
  have hd : a.data ++ b.data = a'.data ++ b'.data := congrArg String.data h
  have := List.append_inj hd hl
  exact ⟨str_ext this.1, str_ext this.2⟩

theorem str_append_cancel_left {a b c : String} (h : a ++ b = a ++ c) : b = c :=
  (str_append_inj h rfl).2

theorem short_sha_length (H : HashModel) (s : String) : (short_sha H s).length = 8 := by
  show ((H.fullSha s).data.take 8).length = 8
  rw [List.length_take]
  have h40 : (H.fullSha s).data.length = 40 := H.len40 s
  omega

theorem pyJoin3 (a b c : String) : pyJoin "__" [a, b, c] = a ++ "__" ++ (b ++ "__" ++ c) := rfl

theorem pyJoin4 (a b c d : String) :
    pyJoin "__" [a, b, c, d] = a ++ "__" ++ (b ++ "__" ++ (c ++ "__" ++ d)) := rfl

theorem fname3_inj {a b c a' b' c' : String} (ha : a.length = a'.length)
    (hb : b.length = b'.length)
    (h : pyJoin "__" [a, b, c] ++ ".prerender" = pyJoin "__" [a', b', c'] ++ ".prerender") :
    a = a' ∧ b = b' ∧ c = c' := by
  rw [pyJoin3, pyJoin3, str_append_assoc (a ++ "__"), str_append_assoc (a' ++ "__")] at h
  obtain ⟨h1, h2⟩ := str_append_inj h (by rw [str_length_append, str_length_append, ha])
  obtain ⟨hA, _⟩ := str_append_inj h1 ha
  rw [str_append_assoc (b ++ "__"), str_append_assoc (b' ++ "__")] at h2
  obtain ⟨h3, h4⟩ := str_append_inj h2 (by rw [str_length_append, str_length_append, hb])
  obtain ⟨hB, _⟩ := str_append_inj h3 hb
  have hlen : c.length = c'.length := by
    have := congrArg String.length h4
    rw [str_length_append, str_length_append] at this
    omega
  exact ⟨hA, hB, (str_append_inj h4 hlen).1⟩

theorem fname4_inj {a b c d a' b' c' d' : String} (ha : a.length = a'.length)
    (hb : b.length = b'.length) (hc : c.length = c'.length)
    (h : pyJoin "__" [a, b, c, d] ++ ".prerender"
      = pyJoin "__" [a', b', c', d'] ++ ".prerender") :
    a = a' ∧ b = b' ∧ c = c' ∧ d = d' := by
  rw [pyJoin4, pyJoin4, str_append_assoc (a ++ "__"), str_append_assoc (a' ++ "__")] at h
  obtain ⟨h1, h2⟩ := str_append_inj h (by rw [str_length_append, str_length_append, ha])
  obtain ⟨hA, _⟩ := str_append_inj h1 ha
  rw [str_append_assoc (b ++ "__"), str_append_assoc (b' ++ "__")] at h2
  obtain ⟨h3, h4⟩ := str_append_inj h2 (by rw [str_length_append, str_length_append, hb])
  obtain ⟨hB, _⟩ := str_append_inj h3 hb
  rw [str_append_assoc (c ++ "__"), str_append_assoc (c' ++ "__")] at h4
  obtain ⟨h5, h6⟩ := str_append_inj h4 (by rw [str_length_append, str_length_append, hc])
  obtain ⟨hC, _⟩ := str_append_inj h5 hc
  have hlen : d.length = d'.length := by
    have := congrArg String.length h6
    rw [str_length_append, str_length_append] at this
    omega
  exact ⟨hA, hB, hC, (str_append_inj h6 hlen).1⟩

theorem fname34_ne {a b c a' b' c' d' : String} (ha : a.length = 8) (hb : b.length = 8)
    (hc : c.length = 8) (ha' : a'.length = 8) (hb' : b'.length = 8) (hc' : c'.length = 8)
    (hd' : d'.length = 8) :
    pyJoin "__" [a, b, c] ++ ".prerender" ≠ pyJoin "__" [a', b', c', d'] ++ ".prerender" := by
  intro h
  have := congrArg String.length h
  rw [pyJoin3, pyJoin4] at this
  simp only [str_length_append] at this
  rw [ha, hb, hc, ha', hb', hc', hd'] at this
  simp at this

theorem pathOfKey_eq (H : HashModel) (root : List String) (levels cpl : Nat) (k : CacheKey) :
    pathOfKey H root levels cpl k
      = (root ++ sha_subfolders H levels cpl k.identifier) ++ [cacheFileName H k] := rfl

theorem path_eq_filename_eq {H : HashModel} {root : List String} {levels cpl : Nat}
    {k₁ k₂ : CacheKey} (h : pathOfKey H root levels cpl k₁ = pathOfKey H root levels cpl k₂)
    (hid : k₁.identifier = k₂.identifier) : cacheFileName H k₁ = cacheFileName H k₂ := by
  rw [pathOfKey_eq, pathOfKey_eq, hid] at h
  have h2 := List.append_cancel_left h
  simpa using h2

theorem path_ne_of_fullSha_ne {H : HashModel} {root : List String} {levels cpl : Nat}
    {k₁ k₂ : CacheKey} (hsha : H.fullSha k₁.identifier ≠ H.fullSha k₂.identifier) :
    pathOfKey H root levels cpl k₁ ≠ pathOfKey H root levels cpl k₂ := by
  intro h
  rw [pathOfKey_eq, pathOfKey_eq, List.append_assoc, List.append_assoc] at h
  have h2 := List.append_cancel_left h
  unfold sha_subfolders at h2
  rw [List.append_assoc, List.append_assoc] at h2
  have h3 := (List.append_inj h2 (by simp)).2
  simp only [List.singleton_append, List.cons.injEq] at h3
  exact hsha h3.1

theorem cacheFileName_inj {H : HashModel} {k₁ k₂ : CacheKey}
    (hshape : pyTruthy k₁.rangeEnd = pyTruthy k₂.rangeEnd)
    (hf : cacheFileName H k₁ = cacheFileName H k₂) :
    short_sha H k₁.tree = short_sha H k₂.tree
    ∧ short_sha H k₁.ref = short_sha H k₂.ref
    ∧ (pyTruthy k₁.rangeEnd = true →
        short_sha H (k₁.rangeEnd.getD "") = short_sha H (k₂.rangeEnd.getD ""))
    ∧ short_sha H k₁.media = short_sha H k₂.media := by
  unfold cacheFileName at hf
  rw [hshape] at hf
  cases hpt : pyTruthy k₂.rangeEnd
  · simp only [hpt, Bool.false_eq_true, if_false, List.nil_append, List.cons_append] at hf
    obtain ⟨hT, hR, hM⟩ := fname3_inj (by simp [short_sha_length])
      (by simp [short_sha_length]) hf
    refine ⟨hT, hR, fun h1 => ?_, hM⟩
    rw [hshape, hpt] at h1
    exact absurd h1 (by simp)
  · simp only [hpt, if_true, List.cons_append, List.nil_append] at hf
    obtain ⟨hT, hR, hE, hM⟩ := fname4_inj (by simp [short_sha_length])
      (by simp [short_sha_length]) (by simp [short_sha_length]) hf
    exact ⟨hT, hR, fun _ => hE, hM⟩

theorem cacheFileName_ne_shape {H : HashModel} {k₁ k₂ : CacheKey}
    (h₁ : pyTruthy k₁.rangeEnd = true) (h₂ : pyTruthy k₂.rangeEnd = false) :
    cacheFileName H k₁ ≠ cacheFileName H k₂ := by
  intro hf
  unfold cacheFileName at hf
  simp only [h₁, h₂, if_true, Bool.false_eq_true, if_false, List.append_nil,
    List.cons_append, List.nil_append] at hf
  exact fname34_ne (short_sha_length H _) (short_sha_length H _) (short_sha_length H _)
    (short_sha_length H _) (short_sha_length H _) (short_sha_length H _)
    (short_sha_length H _) hf.symm

/-- C7 (amended): get_cache_path is a pure function — field-wise equal
inputs give the identical path on every call — and two inputs differing
in exactly one field give different paths, barring a digest collision on
the differing field, and except that an empty-string range end is
identified with an absent range end (the Python truthiness test on line
77), as the counterexample theorem forces.  Conjuncts: determinism, then
separation for a differing identifier, tree, reference, media type, and
truthiness-normalized range end. -/
theorem get_cache_path_separates_keys :
    (∀ (H : HashModel) (root : List String) (levels cpl : Nat) (k₁ k₂ : CacheKey),
      k₁ = k₂ → pathOfKey H root levels cpl k₁ = pathOfKey H root levels cpl k₂)
    ∧ (∀ (H : HashModel) (root : List String) (levels cpl : Nat) (k₁ k₂ : CacheKey),
        H.fullSha k₁.identifier ≠ H.fullSha k₂.identifier →
        pathOfKey H root levels cpl k₁ ≠ pathOfKey H root levels cpl k₂)
    ∧ (∀ (H : HashModel) (root : List String) (levels cpl : Nat) (k₁ k₂ : CacheKey),
        k₁.identifier = k₂.identifier → short_sha H k₁.tree ≠ short_sha H k₂.tree →
        k₁.ref = k₂.ref → k₁.rangeEnd = k₂.rangeEnd → k₁.media = k₂.media →
        pathOfKey H root levels cpl k₁ ≠ pathOfKey H root levels cpl k₂)
    ∧ (∀ (H : HashModel) (root : List String) (levels cpl : Nat) (k₁ k₂ : CacheKey),
        k₁.identifier = k₂.identifier → short_sha H k₁.ref ≠ short_sha H k₂.ref →
        k₁.tree = k₂.tree → k₁.rangeEnd = k₂.rangeEnd → k₁.media = k₂.media →
        pathOfKey H root levels cpl k₁ ≠ pathOfKey H root levels cpl k₂)
    ∧ (∀ (H : HashModel) (root : List String) (levels cpl : Nat) (k₁ k₂ : CacheKey),
        k₁.identifier = k₂.identifier → short_sha H k₁.media ≠ short_sha H k₂.media →
        k₁.tree = k₂.tree → k₁.rangeEnd = k₂.rangeEnd → k₁.ref = k₂.ref →
        pathOfKey H root levels cpl k₁ ≠ pathOfKey H root levels cpl k₂)
    ∧ (∀ (H : HashModel) (root : List String) (levels cpl : Nat) (k₁ k₂ : CacheKey),
        k₁.identifier = k₂.identifier → k₁.ref = k₂.ref → k₁.media = k₂.media →
        k₁.tree = k₂.tree → normalizeEnd k₁.rangeEnd ≠ normalizeEnd k₂.rangeEnd →
        (∀ e₁ e₂, normalizeEnd k₁.rangeEnd = some e₁ → normalizeEnd k₂.rangeEnd = some e₂ →
          short_sha H e₁ ≠ short_sha H e₂) →
        pathOfKey H root levels cpl k₁ ≠ pathOfKey H root levels cpl k₂) := by
  refine ⟨?_, ?_, ?_, ?_, ?_, ?_⟩
  · intro H root levels cpl k₁ k₂ h
    rw [h]
  · intro H root levels cpl k₁ k₂ hsha
    exact path_ne_of_fullSha_ne hsha
  · intro H root levels cpl k₁ k₂ hid hsha _ hend _ h
    exact hsha (cacheFileName_inj (congrArg pyTruthy hend) (path_eq_filename_eq h hid)).1
  · intro H root levels cpl k₁ k₂ hid hsha _ hend _ h
    exact hsha (cacheFileName_inj (congrArg pyTruthy hend) (path_eq_filename_eq h hid)).2.1
  · intro H root levels cpl k₁ k₂ hid hsha _ hend _ h
    exact hsha (cacheFileName_inj (congrArg pyTruthy hend) (path_eq_filename_eq h hid)).2.2.2
  · intro H root levels cpl k₁ k₂ hid _ _ _ hnorm hcoll h
    have hf := path_eq_filename_eq h hid
    cases hpt₁ : pyTruthy k₁.rangeEnd <;> cases hpt₂ : pyTruthy k₂.rangeEnd
    · exact hnorm (by simp [normalizeEnd, hpt₁, hpt₂])
    · exact cacheFileName_ne_shape hpt₂ hpt₁ hf.symm
    · exact cacheFileName_ne_shape hpt₁ hpt₂ hf
    · have hE := (cacheFileName_inj (by rw [hpt₁, hpt₂]) hf).2.2.1 hpt₁
      exact hcoll (k₁.rangeEnd.getD "") (k₂.rangeEnd.getD "")
        (by simp [normalizeEnd, hpt₁]) (by simp [normalizeEnd, hpt₂]) hE

/-- C7 witness: two keys differing only in the tree give different paths
under the concrete digest model (whose digests of "default" and "other"
do not collide). -/
theorem get_cache_path_separates_keys_witness :
    pathOfKey padHash [] 3 2 ⟨"doc1", "p1", none, "application/xml", "default"⟩
      ≠ pathOfKey padHash [] 3 2 ⟨"doc1", "p1", none, "application/xml", "other"⟩ :=
  get_cache_path_separates_keys.2.2.1 padHash [] 3 2 _ _ rfl (by decide) rfl rfl rfl

/-- C7 counterexample: the keys (doc1, p1, end="", xml, default) and
(doc1, p1, end absent, xml, default) differ in exactly one field (the
range end) yet map to the identical path, and no truncated-digest
collision is involved — the empty-string end is simply skipped by the
truthiness test on line 77. -/
theorem get_cache_path_empty_end_counterexample :
    pathOfKey padHash [] 3 2 ⟨"doc1", "p1", some "", "application/xml", "default"⟩
      = pathOfKey padHash [] 3 2 ⟨"doc1", "p1", none, "application/xml", "default"⟩
    ∧ (some "" : Option String) ≠ (none : Option String) := by
  exact ⟨rfl, by simp⟩

/-- C5 (amended): save_cache never lets an I/O failure of the open or of
the write of the envelope escape — those are caught by the except clause
on line 112 — provided the mkdir of the parent directories (line 106)
succeeds; the counterexample shows a mkdir failure escaping, because
that call stands before the try block. -/
theorem save_cache_swallows_write_failures (H : HashModel) (root : List String)
    (levels cpl : Nat) (env : IOEnv) (disk : Disk) (identifier ref : String)
    (endOpt : Option String) (media tree content : String)
    (h : env.mkdirFails = false) :
    (save_cache H root levels cpl env disk identifier ref endOpt media tree content).isOk
      = true := by
  rcases env with ⟨mk, op, wr⟩
  simp only at h
  subst h
  cases op <;> cases wr <;> rfl

/-- C5 witness: a failing json.dump is swallowed (the call reports
success). -/
theorem save_cache_swallows_write_failures_witness :
    (⟨false, false, true⟩ : IOEnv).mkdirFails = false
    ∧ (save_cache padHash [] 3 2 ⟨false, false, true⟩ emptyDisk "doc1" "p1" none
        "application/xml" "default" "c").isOk = true :=
  ⟨rfl, save_cache_swallows_write_failures padHash [] 3 2 ⟨false, false, true⟩ emptyDisk
    "doc1" "p1" none "application/xml" "default" "c" rfl⟩

/-- C5 counterexample: an I/O failure while creating the parent
directories escapes to the caller, because path.parent.mkdir on line 106
stands outside the try block of lines 107-115. -/
theorem save_cache_mkdir_failure_counterexample :
    save_cache padHash [] 3 2 ⟨true, false, false⟩ emptyDisk "doc1" "p1" none
      "application/xml" "default" "c" = .error .ioError := rfl

/-- C6 (amended): get_cache reports a miss when the file is absent,
unreadable, not valid JSON (which covers partially written envelopes) or
a JSON object lacking the "content" field — never returning corrupt data
as content — and returns the stored string when the envelope is intact;
but a file holding valid JSON whose top level is not an object makes
data.get raise an AttributeError that escapes to the caller (the except
clause on line 98 only catches JSONDecodeError and IOError), as the
counterexample forces. -/
theorem get_cache_corruption_as_miss (H : HashModel) (root : List String) (levels cpl : Nat)
    (disk : Disk) (identifier ref : String) (endOpt : Option String) (media tree : String) :
    (disk (get_cache_path H root levels cpl identifier ref endOpt media tree) = none →
      get_cache H root levels cpl disk identifier ref endOpt media tree = .ok none)
    ∧ (disk (get_cache_path H root levels cpl identifier ref endOpt media tree)
        = some .unreadable →
      get_cache H root levels cpl disk identifier ref endOpt media tree = .ok none)
    ∧ (disk (get_cache_path H root levels cpl identifier ref endOpt media tree)
        = some .notJson →
      get_cache H root levels cpl disk identifier ref endOpt media tree = .ok none)
    ∧ (disk (get_cache_path H root levels cpl identifier ref endOpt media tree)
        = some (.jsonObject none) →
      get_cache H root levels cpl disk identifier ref endOpt media tree = .ok none)
    ∧ (∀ c, disk (get_cache_path H root levels cpl identifier ref endOpt media tree)
        = some (.jsonObject (some c)) →
      get_cache H root levels cpl disk identifier ref endOpt media tree = .ok (some c))
    ∧ (disk (get_cache_path H root levels cpl identifier ref endOpt media tree)
        = some .jsonNonObject →
      get_cache H root levels cpl disk identifier ref endOpt media tree
        = .error .attributeError) := by
  refine ⟨fun h => ?_, fun h => ?_, fun h => ?_, fun h => ?_, fun c h => ?_, fun h => ?_⟩
    <;> simp [get_cache, h]

/-- C6 witness: an absent file is a miss. -/
theorem get_cache_corruption_as_miss_witness :
    get_cache padHash [] 3 2 emptyDisk "doc1" "p1" none "application/xml" "default"
      = .ok none :=
  (get_cache_corruption_as_miss padHash [] 3 2 emptyDisk "doc1" "p1" none
    "application/xml" "default").1 rfl

/-- C6 counterexample: a cache file holding valid JSON that is not an
object (for instance an empty array) raises an uncaught AttributeError
instead of being treated as a miss. -/
theorem get_cache_nonobject_json_counterexample :
    get_cache padHash [] 3 2 cexDiskNonObject "doc1" "p1" none "application/xml" "default"
      = .error .attributeError := rfl

/-- C9: save_cache writes in place — open(path, "w") truncates the target
file, then json.dump refills it — so a concurrent reader of the same key
observes, mid-write, a file that holds neither the complete old envelope
nor the complete new one: where the old content "OLD" was readable
before the write and "NEW" is readable after it, the intermediate state
holds a partially written (not valid JSON) file, which get_cache reports
as a miss.  No temporary file and no rename exist in the source. -/
theorem save_cache_partial_write_window :
    get_cache padHash [] 3 2 cexDiskOld "doc1" "p1" none "application/xml" "default"
      = .ok (some "OLD")
    ∧ ((save_cache_states padHash [] 3 2 cexDiskOld "doc1" "p1" none "application/xml"
        "default" "NEW").getD 0 cexDiskOld) cexPath = some .notJson
    ∧ get_cache padHash [] 3 2 ((save_cache_states padHash [] 3 2 cexDiskOld "doc1" "p1"
        none "application/xml" "default" "NEW").getD 0 cexDiskOld) "doc1" "p1" none
        "application/xml" "default" = .ok none
    ∧ get_cache padHash [] 3 2 ((save_cache_states padHash [] 3 2 cexDiskOld "doc1" "p1"
        none "application/xml" "default" "NEW").getD 1 cexDiskOld) "doc1" "p1" none
        "application/xml" "default" = .ok (some "NEW") :=
  ⟨rfl, rfl, rfl, rfl⟩

/-- The file level and the key level agree in the failure-free case: a
successful save stores the single-field envelope, and get_cache then
returns exactly the saved content. -/
theorem get_cache_of_save_cache (H : HashModel) (root : List String) (levels cpl : Nat)
    (disk : Disk) (identifier ref : String) (endOpt : Option String)
    (media tree content : String) :
    save_cache H root levels cpl ⟨false, false, false⟩ disk identifier ref endOpt media tree
        content
      = .ok (updateDisk disk (get_cache_path H root levels cpl identifier ref endOpt media
          tree) (.jsonObject (some content)))
    ∧ get_cache H root levels cpl (updateDisk disk (get_cache_path H root levels cpl
        identifier ref endOpt media tree) (.jsonObject (some content))) identifier ref
        endOpt media tree = .ok (some content) := by
  refine ⟨rfl, ?_⟩
  simp [get_cache, updateDisk]

/-- C1 (amended): on a default-media request whose cache lookup misses,
the read path (get_xml_passage_or_cache, invoked from
custom_document_view) extracts the passage via the extraction engine and
returns that content, but writes nothing to the cache: the store is
returned unchanged, so the base-XML entry stays absent.  (Only the batch
generator populates base-XML entries.) -/
theorem read_path_default_media_no_store
    (E : ExtractFun) (T : TransformFun) (mapping : List (String × String))
    (colls : List CollectionRec) (navs : List (String × NavigationRec)) (store : Store)
    (rs r : String) (tree media : Option String) (col : CollectionRec) (nav : NavigationRec)
    (refsList paths : List String)
    (hrs : rs ≠ "") (hr : r ≠ "")
    (hcol : colls.find? (fun c => c.identifier == rs) = some col)
    (hnav : alistFind navs col.identifier = some nav)
    (htr : alistFind nav.references (pyOr tree col.default_tree) = some refsList)
    (hpaths : alistFind nav.paths (pyOr tree col.default_tree) = some paths)
    (hmem : paths.contains r = true)
    (hmedia : pyOr media DEFAULT_MEDIA_TYPE = DEFAULT_MEDIA_TYPE)
    (hmiss : pyTruthy (store ⟨col.identifier, r, none, DEFAULT_MEDIA_TYPE,
        pyOr tree col.default_tree⟩) = false) :
    (get_xml_passage_or_cache true E store col r none (pyOr tree col.default_tree)).passage
        = E col.filepath r none (pyOr tree col.default_tree)
    ∧ (get_xml_passage_or_cache true E store col r none
        (pyOr tree col.default_tree)).extractCalls = 1
    ∧ custom_document_view true E T mapping colls navs store (some rs) (some r) none none
        tree media
      = ⟨.ok 200 (E col.filepath r none (pyOr tree col.default_tree)) "application/xml",
          store, 1, 0, 1, 0⟩ := by
  have h1 : pyTruthy (some rs) = true := by simp [pyTruthy, hrs]
  have h2 : pyTruthy (some r) = true := by simp [pyTruthy, hr]
  have h3 : pyTruthy (none : Option String) = false := rfl
  refine ⟨?_, ?_, ?_⟩
  · simp [get_xml_passage_or_cache, getCacheK, hmiss]
  · simp [get_xml_passage_or_cache, getCacheK, hmiss]
  · simp only [custom_document_view, h1, h2, h3, Option.getD_some, hcol, hnav, htr, hpaths,
      hmem, hmedia, hmiss,
      Bool.not_true, Bool.false_and, Bool.and_false, Bool.true_and, Bool.and_true,
      Bool.or_false, Bool.false_or, Bool.true_or, Bool.or_true, Bool.not_false]
    simp [get_xml_passage_or_cache, getCacheK, hmiss]

/-- C1 witness material for the amended theorem. -/
theorem read_path_default_media_no_store_witness :
    (get_xml_passage_or_cache true extractW emptyStore colW "p1" none
        (pyOr none colW.default_tree)).passage
      = extractW colW.filepath "p1" none (pyOr none colW.default_tree)
    ∧ (get_xml_passage_or_cache true extractW emptyStore colW "p1" none
        (pyOr none colW.default_tree)).extractCalls = 1
    ∧ custom_document_view true extractW transformW [] [colW] [("ms001", navW)] emptyStore
        (some "ms001") (some "p1") none none none none
      = ⟨.ok 200 (extractW colW.filepath "p1" none (pyOr none colW.default_tree))
          "application/xml", emptyStore, 1, 0, 1, 0⟩ :=
  read_path_default_media_no_store extractW transformW [] [colW] [("ms001", navW)]
    emptyStore "ms001" "p1" none none colW navW ["p1", "p2"] ["p1", "p2"]
    (by decide) (by decide) (by decide) (by decide) (by decide) (by decide) (by decide)
    (by decide) rfl

/-- C1 counterexample: on a cache miss for the base XML of (ms001, p1,
default tree), the view returns the freshly extracted passage but the
cache entry at the derived key is still absent afterwards — nothing was
stored. -/
theorem read_path_default_media_counterexample :
    (custom_document_view true extractW transformW [] [colW] [("ms001", navW)] emptyStore
        (some "ms001") (some "p1") none none none none).result
      = .ok 200 (extractW "/data/ms001.xml" "p1" none "default") "application/xml"
    ∧ (custom_document_view true extractW transformW [] [colW] [("ms001", navW)] emptyStore
        (some "ms001") (some "p1") none none none none).store
        ⟨"ms001", "p1", none, "application/xml", "default"⟩ = none
    ∧ (custom_document_view true extractW transformW [] [colW] [("ms001", navW)] emptyStore
        (some "ms001") (some "p1") none none none none).cacheWrites = 0 :=
  ⟨rfl, rfl, rfl⟩

/-- C2: from an empty cache, a first request for a valid reference with a
non-default (and non-empty) media type performs exactly one extraction
call and one transformation call and saves the transformed artifact; a
second identical request performs zero extraction and zero
transformation calls, with a single cache lookup — the transformed
artifact is consulted directly, before any base-passage resolution, and
returned immediately on the hit.  (The transformed content must be
non-empty, since the hit test on line 220 is a truthiness test; see the
C10 theorem for the empty case.) -/
theorem transformed_read_through
    (E : ExtractFun) (T : TransformFun) (mapping : List (String × String))
    (colls : List CollectionRec) (navs : List (String × NavigationRec))
    (rs r m : String) (tree : Option String) (col : CollectionRec) (nav : NavigationRec)
    (refsList paths : List String)
    (hrs : rs ≠ "") (hr : r ≠ "")
    (hcol : colls.find? (fun c => c.identifier == rs) = some col)
    (hnav : alistFind navs col.identifier = some nav)
    (htr : alistFind nav.references (pyOr tree col.default_tree) = some refsList)
    (hpaths : alistFind nav.paths (pyOr tree col.default_tree) = some paths)
    (hmem : paths.contains r = true)
    (hm0 : m ≠ "") (hmd : m ≠ DEFAULT_MEDIA_TYPE)
    (hT : T m (E col.filepath r none (pyOr tree col.default_tree)) ≠ "") :
    custom_document_view true E T mapping colls navs emptyStore (some rs) (some r) none none
        tree (some m)
      = ⟨.ok 200 (T m (E col.filepath r none (pyOr tree col.default_tree)))
            (mapGetD mapping m),
          saveCacheK emptyStore ⟨col.identifier, r, none, m, pyOr tree col.default_tree⟩
            (T m (E col.filepath r none (pyOr tree col.default_tree))), 1, 1, 2, 1⟩
    ∧ custom_document_view true E T mapping colls navs
        (saveCacheK emptyStore ⟨col.identifier, r, none, m, pyOr tree col.default_tree⟩
          (T m (E col.filepath r none (pyOr tree col.default_tree))))
        (some rs) (some r) none none tree (some m)
      = ⟨.ok 200 (T m (E col.filepath r none (pyOr tree col.default_tree)))
            (mapGetD mapping m),
          saveCacheK emptyStore ⟨col.identifier, r, none, m, pyOr tree col.default_tree⟩
            (T m (E col.filepath r none (pyOr tree col.default_tree))), 0, 0, 1, 0⟩ := by
  have h1 : pyTruthy (some rs) = true := by simp [pyTruthy, hrs]
  have h2 : pyTruthy (some r) = true := by simp [pyTruthy, hr]
  have h3 : pyTruthy (none : Option String) = false := rfl
  have hmd1 : pyOr (some m) DEFAULT_MEDIA_TYPE = m := by simp [pyOr, pyTruthy, hm0]
  constructor
  · simp only [custom_document_view, h1, h2, h3, Option.getD_some, hcol, hnav, htr, hpaths,
      hmem, hmd1,
      Bool.not_true, Bool.false_and, Bool.and_false, Bool.true_and, Bool.and_true,
      Bool.or_false, Bool.false_or, Bool.true_or, Bool.or_true, Bool.not_false]
    simp [hmd, get_xml_passage_or_cache, getCacheK, emptyStore, h3]
  · simp only [custom_document_view, h1, h2, h3, Option.getD_some, hcol, hnav, htr, hpaths,
      hmem, hmd1,
      Bool.not_true, Bool.false_and, Bool.and_false, Bool.true_and, Bool.and_true,
      Bool.or_false, Bool.false_or, Bool.true_or, Bool.or_true, Bool.not_false]
    simp [hmd, getCacheK, saveCacheK, pyTruthy, hT]

/-- C2 witness: concrete read-through with media html. -/
theorem transformed_read_through_witness :
    custom_document_view true extractW transformW [] [colW] [("ms001", navW)] emptyStore
        (some "ms001") (some "p1") none none none (some "html")
      = ⟨.ok 200 (transformW "html" (extractW colW.filepath "p1" none
            (pyOr none colW.default_tree))) (mapGetD [] "html"),
          saveCacheK emptyStore ⟨colW.identifier, "p1", none, "html",
            pyOr none colW.default_tree⟩
            (transformW "html" (extractW colW.filepath "p1" none
              (pyOr none colW.default_tree))), 1, 1, 2, 1⟩
    ∧ custom_document_view true extractW transformW [] [colW] [("ms001", navW)]
        (saveCacheK emptyStore ⟨colW.identifier, "p1", none, "html",
            pyOr none colW.default_tree⟩
          (transformW "html" (extractW colW.filepath "p1" none
            (pyOr none colW.default_tree))))
        (some "ms001") (some "p1") none none none (some "html")
      = ⟨.ok 200 (transformW "html" (extractW colW.filepath "p1" none
            (pyOr none colW.default_tree))) (mapGetD [] "html"),
          saveCacheK emptyStore ⟨colW.identifier, "p1", none, "html",
            pyOr none colW.default_tree⟩
            (transformW "html" (extractW colW.filepath "p1" none
              (pyOr none colW.default_tree))), 0, 0, 1, 0⟩ :=
  transformed_read_through extractW transformW [] [colW] [("ms001", navW)] "ms001" "p1"
    "html" none colW navW ["p1", "p2"] ["p1", "p2"] (by decide) (by decide) (by decide)
    (by decide) (by decide) (by decide) (by decide) (by decide) (by decide) (by decide)

/-- C3 (amended): requests with invalid navigation parameters are
rejected before the cache is ever consulted: each family of invalid
input yields its error outcome with zero cache reads, zero cache writes,
zero engine calls and the store returned unchanged.  An unknown tree
supplied together with a reference or range parameter, an unknown
reference, and a range with an unknown endpoint all yield a client-side
ValidationError/NotFound response; but an unknown tree supplied with no
reference and no range does not produce a client-side response — the
nav.paths[tree] lookup on line 201 escapes as an uncaught KeyError
(fourth conjunct) — though the cache is equally untouched. -/
theorem validation_never_touches_cache :
    (∀ (useDiskCache : Bool) (E : ExtractFun) (T : TransformFun)
        (mapping : List (String × String)) (colls : List CollectionRec)
        (navs : List (String × NavigationRec)) (store : Store)
        (rs : String) (ref start endOpt tree media : Option String)
        (col : CollectionRec) (nav : NavigationRec),
      rs ≠ "" →
      colls.find? (fun c => c.identifier == rs) = some col →
      alistFind navs col.identifier = some nav →
      (pyTruthy ref || pyTruthy start || pyTruthy endOpt) = true →
      alistFind nav.references (pyOr tree col.default_tree) = none →
      custom_document_view useDiskCache E T mapping colls navs store
          (some rs) ref start endOpt tree media
        = ⟨.clientError "Unknown tree" 404, store, 0, 0, 0, 0⟩)
    ∧ (∀ (useDiskCache : Bool) (E : ExtractFun) (T : TransformFun)
        (mapping : List (String × String)) (colls : List CollectionRec)
        (navs : List (String × NavigationRec)) (store : Store)
        (rs r : String) (tree media : Option String)
        (col : CollectionRec) (nav : NavigationRec) (refsList paths : List String),
      rs ≠ "" → r ≠ "" →
      colls.find? (fun c => c.identifier == rs) = some col →
      alistFind navs col.identifier = some nav →
      alistFind nav.references (pyOr tree col.default_tree) = some refsList →
      alistFind nav.paths (pyOr tree col.default_tree) = some paths →
      paths.contains r = false →
      custom_document_view useDiskCache E T mapping colls navs store
          (some rs) (some r) none none tree media
        = ⟨.clientError "Unknown reference in the requested tree" 404, store, 0, 0, 0, 0⟩)
    ∧ (∀ (useDiskCache : Bool) (E : ExtractFun) (T : TransformFun)
        (mapping : List (String × String)) (colls : List CollectionRec)
        (navs : List (String × NavigationRec)) (store : Store)
        (rs s e : String) (tree media : Option String)
        (col : CollectionRec) (nav : NavigationRec) (refsList paths : List String),
      rs ≠ "" → s ≠ "" → e ≠ "" →
      colls.find? (fun c => c.identifier == rs) = some col →
      alistFind navs col.identifier = some nav →
      alistFind nav.references (pyOr tree col.default_tree) = some refsList →
      alistFind nav.paths (pyOr tree col.default_tree) = some paths →
      (paths.contains s = false ∨ paths.contains e = false) →
      custom_document_view useDiskCache E T mapping colls navs store
          (some rs) none (some s) (some e) tree media
        = ⟨.clientError "Unknown start or end reference in the requested tree" 404,
            store, 0, 0, 0, 0⟩)
    ∧ (∀ (useDiskCache : Bool) (E : ExtractFun) (T : TransformFun)
        (mapping : List (String × String)) (colls : List CollectionRec)
        (navs : List (String × NavigationRec)) (store : Store)
        (rs : String) (tree media : Option String)
        (col : CollectionRec) (nav : NavigationRec),
      rs ≠ "" →
      colls.find? (fun c => c.identifier == rs) = some col →
      alistFind navs col.identifier = some nav →
      alistFind nav.paths (pyOr tree col.default_tree) = none →
      custom_document_view useDiskCache E T mapping colls navs store
          (some rs) none none none tree media
        = ⟨.pyError .keyError, store, 0, 0, 0, 0⟩) := by
  refine ⟨?_, ?_, ?_, ?_⟩
  · intro useDiskCache E T mapping colls navs store rs ref start endOpt tree media col nav
      hrs hcol hnav hany hmissing
    have h1 : pyTruthy (some rs) = true := by simp [pyTruthy, hrs]
    simp only [custom_document_view, h1, Option.getD_some, hcol, hnav, hany, hmissing,
      Bool.not_true, Bool.true_and, Option.isNone_none, if_true]
    simp
  · intro useDiskCache E T mapping colls navs store rs r tree media col nav refsList paths
      hrs hr hcol hnav htr hpaths hmem
    have h1 : pyTruthy (some rs) = true := by simp [pyTruthy, hrs]
    have h2 : pyTruthy (some r) = true := by simp [pyTruthy, hr]
    have h3 : pyTruthy (none : Option String) = false := rfl
    simp only [custom_document_view, h1, h2, h3, Option.getD_some, hcol, hnav, htr, hpaths,
      hmem, Bool.not_true, Bool.false_and, Bool.and_false, Bool.true_and, Bool.and_true,
      Bool.or_false, Bool.false_or, Bool.true_or, Bool.or_true, Bool.not_false]
    simp
  · intro useDiskCache E T mapping colls navs store rs s e tree media col nav refsList paths
      hrs hs he hcol hnav htr hpaths hmem
    have h1 : pyTruthy (some rs) = true := by simp [pyTruthy, hrs]
    have h2 : pyTruthy (some s) = true := by simp [pyTruthy, hs]
    have h3 : pyTruthy (some e) = true := by simp [pyTruthy, he]
    have h4 : pyTruthy (none : Option String) = false := rfl
    have hmem' : (!paths.contains s || !paths.contains e) = true := by
      rcases hmem with h | h
      · rw [h]; rfl
      · rw [h]; simp
    simp only [custom_document_view, h1, h2, h3, h4, Option.getD_some, hcol, hnav, htr,
      hpaths, hmem', Bool.not_true, Bool.false_and, Bool.and_false, Bool.true_and,
      Bool.and_true, Bool.or_false, Bool.false_or, Bool.true_or, Bool.or_true,
      Bool.not_false]
    simp
  · intro useDiskCache E T mapping colls navs store rs tree media col nav hrs hcol hnav
      hpaths
    have h1 : pyTruthy (some rs) = true := by simp [pyTruthy, hrs]
    have h2 : pyTruthy (none : Option String) = false := rfl
    simp only [custom_document_view, h1, h2, Option.getD_some, hcol, hnav, hpaths,
      Bool.or_self, Bool.false_and, Bool.and_false, Bool.false_or, Bool.or_false,
      Bool.not_false, if_false]
    simp

/-- C3 witness: requesting the unknown reference p99 yields a NotFound
client error with no cache read, no cache write and an unchanged
store. -/
theorem validation_never_touches_cache_witness :
    custom_document_view true extractW transformW [] [colW] [("ms001", navW)] emptyStore
        (some "ms001") (some "p99") none none none none
      = ⟨.clientError "Unknown reference in the requested tree" 404, emptyStore,
          0, 0, 0, 0⟩ :=
  validation_never_touches_cache.2.1 true extractW transformW [] [colW]
    [("ms001", navW)] emptyStore "ms001" "p99" none none colW navW ["p1", "p2"]
    ["p1", "p2"] (by decide) (by decide) (by decide) (by decide) (by decide) (by decide)
    (by decide)

/-- C3 counterexample: an unknown tree supplied with no reference does
not yield a client-side ValidationError/NotFound response — the view
raises a KeyError (nav.paths[tree], line 201) — though the cache is
indeed untouched. -/
theorem unknown_tree_keyerror_counterexample :
    (custom_document_view true extractW transformW [] [colW] [("ms001", navW)] emptyStore
        (some "ms001") none none none (some "weird") none).result = .pyError .keyError
    ∧ isClientError (custom_document_view true extractW transformW [] [colW]
        [("ms001", navW)] emptyStore (some "ms001") none none none (some "weird")
        none).result = false
    ∧ (custom_document_view true extractW transformW [] [colW] [("ms001", navW)]
        emptyStore (some "ms001") none none none (some "weird") none).cacheReads = 0
    ∧ (custom_document_view true extractW transformW [] [colW] [("ms001", navW)]
        emptyStore (some "ms001") none none none (some "weird") none).cacheWrites = 0 :=
  ⟨rfl, rfl, rfl, rfl⟩

/-! Batch-generation toolkit lemmas. -/

theorem mediaFold_events_mono (T : TransformFun) (col : CollectionRec) (force : Bool)
    (tree ref bc : String) (l : List String) :
    ∀ (acc : BatchState) (ev : BatchEvent), ev ∈ acc.events →
      ev ∈ (l.foldl (mediaStep T col force tree ref bc) acc).events := by
  induction l with
  | nil => intro acc ev h; exact h
  | cons m rest ih =>
    intro acc ev h
    apply ih
    unfold mediaStep
    split
    · simp [h]
    · exact h

theorem mediaFold_rendered_mono (T : TransformFun) (col : CollectionRec) (force : Bool)
    (tree ref bc : String) (l : List String) :
    ∀ (acc : BatchState),
      acc.rendered ≤ (l.foldl (mediaStep T col force tree ref bc) acc).rendered := by
  induction l with
  | nil => intro acc; exact Nat.le_refl _
  | cons m rest ih =>
    intro acc
    refine Nat.le_trans ?_ (ih (mediaStep T col force tree ref bc acc m))
    unfold mediaStep
    split
    · exact Nat.le_succ _
    · exact Nat.le_refl _

theorem mediaFold_store_frame (T : TransformFun) (col : CollectionRec) (force : Bool)
    (tree ref bc : String) (l : List String) :
    ∀ (acc : BatchState) (k : CacheKey),
      (∀ m ∈ l, k ≠ ⟨col.identifier, ref, none, m, tree⟩) →
      (l.foldl (mediaStep T col force tree ref bc) acc).store k = acc.store k := by
  induction l with
  | nil => intro acc k _; rfl
  | cons m rest ih =>
    intro acc k hk
    rw [List.foldl_cons, ih _ k (fun x hx => hk x (List.mem_cons_of_mem m hx))]
    unfold mediaStep
    split
    · simp [saveCacheK, hk m (List.mem_cons_self m rest)]
    · rfl

theorem mediaFold_force_sets (T : TransformFun) (col : CollectionRec)
    (tree ref bc : String) (l : List String) :
    ∀ (acc : BatchState) (m : String),
      (m ∈ l ∨ acc.store ⟨col.identifier, ref, none, m, tree⟩ = some (T m bc)) →
      (l.foldl (mediaStep T col true tree ref bc) acc).store
        ⟨col.identifier, ref, none, m, tree⟩ = some (T m bc) := by
  induction l with
  | nil =>
    intro acc m h
    rcases h with h | h
    · exact absurd h (List.not_mem_nil m)
    · exact h
  | cons m0 rest ih =>
    intro acc m h
    rw [List.foldl_cons]
    by_cases hm : m = m0
    · subst hm
      apply ih
      right
      simp [mediaStep, saveCacheK]
    · rcases h with h | h
      · rcases List.mem_cons.mp h with h1 | h1
        · exact absurd h1 hm
        · exact ih _ m (Or.inl h1)
      · apply ih
        right
        rw [show (mediaStep T col true tree ref bc acc m0).store
            ⟨col.identifier, ref, none, m, tree⟩
            = acc.store ⟨col.identifier, ref, none, m, tree⟩ from ?_]
        · exact h
        · simp only [mediaStep, Bool.or_true, if_true]
          simp [saveCacheK, CacheKey.mk.injEq, hm]

theorem mediaFold_force_adds (T : TransformFun) (col : CollectionRec)
    (tree ref bc : String) (l : List String) :
    ∀ (acc : BatchState) (m : String), m ∈ l →
      BatchEvent.transformEv col.identifier ref tree m
        ∈ (l.foldl (mediaStep T col true tree ref bc) acc).events := by
  induction l with
  | nil => intro acc m h; exact absurd h (List.not_mem_nil m)
  | cons m0 rest ih =>
    intro acc m h
    rw [List.foldl_cons]
    rcases List.mem_cons.mp h with h1 | h1
    · subst h1
      apply mediaFold_events_mono
      simp [mediaStep]
    · exact ih _ m h1

theorem mediaFold_noop (T : TransformFun) (col : CollectionRec)
    (tree ref bc : String) (l : List String) :
    ∀ (acc : BatchState),
      (∀ m ∈ l, (acc.store ⟨col.identifier, ref, none, m, tree⟩).isSome = true) →
      l.foldl (mediaStep T col false tree ref bc) acc = acc := by
  induction l with
  | nil => intro acc _; rfl
  | cons m0 rest ih =>
    intro acc hl
    rw [List.foldl_cons]
    have hstep : mediaStep T col false tree ref bc acc m0 = acc := by
      obtain ⟨v, hv⟩ := Option.isSome_iff_exists.mp (hl m0 (List.mem_cons_self m0 rest))
      simp [mediaStep, getCacheK, hv]
    rw [hstep]
    exact ih acc (fun m hm => hl m (List.mem_cons_of_mem m0 hm))

theorem prerenderRef_frame (E : ExtractFun) (T : TransformFun) (col : CollectionRec)
    (mts : List String) (force : Bool) (tree ref : String) (st : BatchState) (k : CacheKey)
    (hk : k.ref ≠ ref ∨ k.tree ≠ tree) :
    (prerenderRef E T col mts force tree ref st).store k = st.store k := by
  have hkey : ∀ m : String, k ≠ ⟨col.identifier, ref, none, m, tree⟩ := by
    intro m heq
    rcases hk with h | h
    · exact h (by rw [heq])
    · exact h (by rw [heq])
  unfold prerenderRef
  split
  · rw [mediaFold_store_frame T col force tree ref _ mts _ k (fun m _ => hkey m)]
    simp [saveCacheK, hkey DEFAULT_MEDIA_TYPE]
  · rw [mediaFold_store_frame T col force tree ref _ mts _ k (fun m _ => hkey m)]

theorem prerenderRef_events_mono (E : ExtractFun) (T : TransformFun) (col : CollectionRec)
    (mts : List String) (force : Bool) (tree ref : String) (st : BatchState)
    (ev : BatchEvent) (h : ev ∈ st.events) :
    ev ∈ (prerenderRef E T col mts force tree ref st).events := by
  unfold prerenderRef
  split
  · exact mediaFold_events_mono T col force tree ref _ mts _ ev (by simp [h])
  · exact mediaFold_events_mono T col force tree ref _ mts _ ev h

theorem prerenderRef_rendered_mono (E : ExtractFun) (T : TransformFun)
    (col : CollectionRec) (mts : List String) (force : Bool) (tree ref : String)
    (st : BatchState) :
    st.rendered ≤ (prerenderRef E T col mts force tree ref st).rendered := by
  unfold prerenderRef
  split
  · exact Nat.le_trans (Nat.le_succ _) (mediaFold_rendered_mono T col force tree ref _ mts ⟨_, _, _⟩)
  · exact mediaFold_rendered_mono T col force tree ref _ mts _

theorem prerenderRef_force_done (E : ExtractFun) (T : TransformFun) (col : CollectionRec)
    (mts : List String) (tree ref : String) (st : BatchState)
    (hmts : DEFAULT_MEDIA_TYPE ∉ mts) :
    refDone E T col mts tree ref (prerenderRef E T col mts true tree ref st) := by
  have hcond : (!pyTruthy (getCacheK st.store
      ⟨col.identifier, ref, none, DEFAULT_MEDIA_TYPE, tree⟩) || true) = true := by
    simp
  constructor
  · unfold prerenderRef
    rw [if_pos hcond]
    rw [mediaFold_store_frame T col true tree ref _ mts _ _ ?_]
    · simp [saveCacheK]
    · intro m hm heq
      have : DEFAULT_MEDIA_TYPE = m := congrArg CacheKey.media heq
      exact hmts (this ▸ hm)
  · intro m hm
    unfold prerenderRef
    rw [if_pos hcond]
    exact mediaFold_force_sets T col tree ref _ mts _ m (Or.inl hm)

theorem prerenderRef_force_events (E : ExtractFun) (T : TransformFun)
    (col : CollectionRec) (mts : List String) (tree ref : String) (st : BatchState) :
    BatchEvent.extractEv col.identifier ref tree
      ∈ (prerenderRef E T col mts true tree ref st).events
    ∧ ∀ m ∈ mts, BatchEvent.transformEv col.identifier ref tree m
      ∈ (prerenderRef E T col mts true tree ref st).events := by
  have hcond : (!pyTruthy (getCacheK st.store
      ⟨col.identifier, ref, none, DEFAULT_MEDIA_TYPE, tree⟩) || true) = true := by
    simp
  constructor
  · unfold prerenderRef
    rw [if_pos hcond]
    exact mediaFold_events_mono T col true tree ref _ mts _ _ (by simp)
  · intro m hm
    unfold prerenderRef
    rw [if_pos hcond]
    exact mediaFold_force_adds T col tree ref _ mts _ m hm

theorem prerenderRef_noop (E : ExtractFun) (T : TransformFun) (col : CollectionRec)
    (mts : List String) (tree ref : String) (st : BatchState)
    (hbase : pyTruthy (st.store ⟨col.identifier, ref, none, DEFAULT_MEDIA_TYPE, tree⟩)
      = true)
    (hm : ∀ m ∈ mts, (st.store ⟨col.identifier, ref, none, m, tree⟩).isSome = true) :
    prerenderRef E T col mts false tree ref st = st := by
  unfold prerenderRef
  rw [if_neg ?_]
  · exact mediaFold_noop T col tree ref _ mts st hm
  · simp [getCacheK, hbase]

theorem prerenderRef_empty_base_regenerates (E : ExtractFun) (T : TransformFun)
    (col : CollectionRec) (mts : List String) (tree ref : String) (st : BatchState)
    (h : st.store ⟨col.identifier, ref, none, DEFAULT_MEDIA_TYPE, tree⟩ = some "") :
    BatchEvent.extractEv col.identifier ref tree
      ∈ (prerenderRef E T col mts false tree ref st).events
    ∧ BatchEvent.saveEv ⟨col.identifier, ref, none, DEFAULT_MEDIA_TYPE, tree⟩
      ∈ (prerenderRef E T col mts false tree ref st).events
    ∧ st.rendered + 1 ≤ (prerenderRef E T col mts false tree ref st).rendered := by
  have hcond : (!pyTruthy (getCacheK st.store
      ⟨col.identifier, ref, none, DEFAULT_MEDIA_TYPE, tree⟩) || false) = true := by
    simp [getCacheK, h, pyTruthy]
  refine ⟨?_, ?_, ?_⟩
  · unfold prerenderRef
    rw [if_pos hcond]
    exact mediaFold_events_mono T col false tree ref _ mts _ _ (by simp)
  · unfold prerenderRef
    rw [if_pos hcond]
    exact mediaFold_events_mono T col false tree ref _ mts _ _ (by simp)
  · unfold prerenderRef
    rw [if_pos hcond]
    exact mediaFold_rendered_mono T col false tree ref _ mts ⟨_, _, _⟩

theorem innerFold_frame (E : ExtractFun) (T : TransformFun) (col : CollectionRec)
    (mts : List String) (force : Bool) (tree : String) (refs : List String) :
    ∀ (acc : BatchState) (k : CacheKey), (k.tree ≠ tree ∨ ∀ x ∈ refs, k.ref ≠ x) →
      (refs.foldl (fun a x => prerenderRef E T col mts force tree x a) acc).store k
        = acc.store k := by
  induction refs with
  | nil => intro acc k _; rfl
  | cons r0 rest ih =>
    intro acc k hk
    have hihc : k.tree ≠ tree ∨ ∀ x ∈ rest, k.ref ≠ x := by
      rcases hk with h | h
      · exact Or.inl h
      · exact Or.inr (fun x hx => h x (List.mem_cons_of_mem r0 hx))
    have hprc : k.ref ≠ r0 ∨ k.tree ≠ tree := by
      rcases hk with h | h
      · exact Or.inr h
      · exact Or.inl (h r0 (List.mem_cons_self r0 rest))
    rw [List.foldl_cons, ih _ k hihc,
      prerenderRef_frame E T col mts force tree r0 acc k hprc]

theorem innerFold_events_mono (E : ExtractFun) (T : TransformFun) (col : CollectionRec)
    (mts : List String) (force : Bool) (tree : String) (refs : List String) :
    ∀ (acc : BatchState) (ev : BatchEvent), ev ∈ acc.events →
      ev ∈ (refs.foldl (fun a x => prerenderRef E T col mts force tree x a) acc).events := by
  induction refs with
  | nil => intro acc ev h; exact h
  | cons r0 rest ih =>
    intro acc ev h
    exact ih _ ev (prerenderRef_events_mono E T col mts force tree r0 acc ev h)

theorem innerFold_force_done (E : ExtractFun) (T : TransformFun) (col : CollectionRec)
    (mts : List String) (tree : String) (refs : List String)
    (hmts : DEFAULT_MEDIA_TYPE ∉ mts) :
    ∀ (acc : BatchState) (r : String),
      (r ∈ refs ∨ refDone E T col mts tree r acc) →
      refDone E T col mts tree r
        (refs.foldl (fun a x => prerenderRef E T col mts true tree x a) acc) := by
  induction refs with
  | nil =>
    intro acc r h
    rcases h with h | h
    · exact absurd h (List.not_mem_nil r)
    · exact h
  | cons r0 rest ih =>
    intro acc r h
    rw [List.foldl_cons]
    by_cases hr : r = r0
    · subst hr
      exact ih _ r (Or.inr (prerenderRef_force_done E T col mts tree r acc hmts))
    · rcases h with h | h
      · rcases List.mem_cons.mp h with h1 | h1
        · exact absurd h1 hr
        · exact ih _ r (Or.inl h1)
      · refine ih _ r (Or.inr ?_)
        constructor
        · rw [prerenderRef_frame E T col mts true tree r0 acc _ (Or.inl hr)]
          exact h.1
        · intro m hm
          rw [prerenderRef_frame E T col mts true tree r0 acc _ (Or.inl hr)]
          exact h.2 m hm

theorem innerFold_force_events (E : ExtractFun) (T : TransformFun) (col : CollectionRec)
    (mts : List String) (tree : String) (refs : List String) :
    ∀ (acc : BatchState) (r : String), r ∈ refs →
      BatchEvent.extractEv col.identifier r tree
        ∈ (refs.foldl (fun a x => prerenderRef E T col mts true tree x a) acc).events
      ∧ ∀ m ∈ mts, BatchEvent.transformEv col.identifier r tree m
        ∈ (refs.foldl (fun a x => prerenderRef E T col mts true tree x a) acc).events := by
  induction refs with
  | nil => intro acc r h; exact absurd h (List.not_mem_nil r)
  | cons r0 rest ih =>
    intro acc r h
    rw [List.foldl_cons]
    rcases List.mem_cons.mp h with h1 | h1
    · subst h1
      constructor
      · exact innerFold_events_mono E T col mts true tree rest _ _
          (prerenderRef_force_events E T col mts tree r acc).1
      · intro m hm
        exact innerFold_events_mono E T col mts true tree rest _ _
          ((prerenderRef_force_events E T col mts tree r acc).2 m hm)
    · exact ih _ r h1

theorem innerFold_noop (E : ExtractFun) (T : TransformFun) (col : CollectionRec)
    (mts : List String) (tree : String) (refs : List String) :
    ∀ (acc : BatchState),
      (∀ r ∈ refs,
        pyTruthy (acc.store ⟨col.identifier, r, none, DEFAULT_MEDIA_TYPE, tree⟩) = true
        ∧ ∀ m ∈ mts, (acc.store ⟨col.identifier, r, none, m, tree⟩).isSome = true) →
      refs.foldl (fun a x => prerenderRef E T col mts false tree x a) acc = acc := by
  induction refs with
  | nil => intro acc _; rfl
  | cons r0 rest ih =>
    intro acc hw
    rw [List.foldl_cons,
      prerenderRef_noop E T col mts tree r0 acc (hw r0 (List.mem_cons_self r0 rest)).1
        (hw r0 (List.mem_cons_self r0 rest)).2]
    exact ih acc (fun r hr => hw r (List.mem_cons_of_mem r0 hr))

theorem outerFold_events_mono (E : ExtractFun) (T : TransformFun) (col : CollectionRec)
    (mts : List String) (force : Bool) (pairs : List (String × List String)) :
    ∀ (acc : BatchState) (ev : BatchEvent), ev ∈ acc.events →
      ev ∈ (pairs.foldl (fun acc2 p =>
        p.2.foldl (fun a x => prerenderRef E T col mts force p.1 x a) acc2) acc).events := by
  induction pairs with
  | nil => intro acc ev h; exact h
  | cons p0 rest ih =>
    intro acc ev h
    exact ih _ ev (innerFold_events_mono E T col mts force p0.1 p0.2 acc ev h)

theorem outerFold_force_done (E : ExtractFun) (T : TransformFun) (col : CollectionRec)
    (mts : List String) (pairs : List (String × List String))
    (hmts : DEFAULT_MEDIA_TYPE ∉ mts) :
    ∀ (acc : BatchState) (tr r : String),
      ((∃ refs, (tr, refs) ∈ pairs ∧ r ∈ refs) ∨ refDone E T col mts tr r acc) →
      refDone E T col mts tr r
        (pairs.foldl (fun acc2 p =>
          p.2.foldl (fun a x => prerenderRef E T col mts true p.1 x a) acc2) acc) := by
  induction pairs with
  | nil =>
    intro acc tr r h
    rcases h with ⟨refs, h1, _⟩ | h
    · exact absurd h1 (List.not_mem_nil _)
    · exact h
  | cons p0 rest ih =>
    intro acc tr r h
    rw [List.foldl_cons]
    rcases h with ⟨refs, h1, h2⟩ | h
    · rcases List.mem_cons.mp h1 with h3 | h3
      · subst h3
        exact ih _ tr r
          (Or.inr (innerFold_force_done E T col mts tr refs hmts acc r (Or.inl h2)))
      · exact ih _ tr r (Or.inl ⟨refs, h3, h2⟩)
    · refine ih _ tr r (Or.inr ?_)
      by_cases htr : tr = p0.1
      · by_cases hrr : r ∈ p0.2
        · rw [htr]
          exact innerFold_force_done E T col mts p0.1 p0.2 hmts acc r (Or.inl hrr)
        · have hfr : ∀ k : CacheKey, k.ref = r →
              (p0.2.foldl (fun a x => prerenderRef E T col mts true p0.1 x a) acc).store k
                = acc.store k := by
            intro k hkr
            apply innerFold_frame
            refine Or.inr (fun x hx hco => hrr ?_)
            have hrx : r = x := by rw [← hkr, hco]
            rw [hrx]
            exact hx
          constructor
          · rw [hfr ⟨col.identifier, r, none, DEFAULT_MEDIA_TYPE, tr⟩ rfl]
            exact h.1
          · intro m hm
            rw [hfr ⟨col.identifier, r, none, m, tr⟩ rfl]
            exact h.2 m hm
      · have hfr : ∀ k : CacheKey, k.tree = tr →
            (p0.2.foldl (fun a x => prerenderRef E T col mts true p0.1 x a) acc).store k
              = acc.store k := by
          intro k hkt
          apply innerFold_frame
          exact Or.inl (by rw [hkt]; exact htr)
        constructor
        · rw [hfr ⟨col.identifier, r, none, DEFAULT_MEDIA_TYPE, tr⟩ rfl]
          exact h.1
        · intro m hm
          rw [hfr ⟨col.identifier, r, none, m, tr⟩ rfl]
          exact h.2 m hm

theorem outerFold_force_events (E : ExtractFun) (T : TransformFun) (col : CollectionRec)
    (mts : List String) (pairs : List (String × List String)) :
    ∀ (acc : BatchState) (tr : String) (refs : List String) (r : String),
      (tr, refs) ∈ pairs → r ∈ refs →
      BatchEvent.extractEv col.identifier r tr
        ∈ (pairs.foldl (fun acc2 p =>
          p.2.foldl (fun a x => prerenderRef E T col mts true p.1 x a) acc2) acc).events
      ∧ ∀ m ∈ mts, BatchEvent.transformEv col.identifier r tr m
        ∈ (pairs.foldl (fun acc2 p =>
          p.2.foldl (fun a x => prerenderRef E T col mts true p.1 x a) acc2) acc).events := by
  induction pairs with
  | nil => intro acc tr refs r h _; exact absurd h (List.not_mem_nil _)
  | cons p0 rest ih =>
    intro acc tr refs r h1 h2
    rw [List.foldl_cons]
    rcases List.mem_cons.mp h1 with h3 | h3
    · subst h3
      have hin := innerFold_force_events E T col mts tr refs acc r h2
      constructor
      · exact outerFold_events_mono E T col mts true rest _ _ hin.1
      · intro m hm
        exact outerFold_events_mono E T col mts true rest _ _ (hin.2 m hm)
    · exact ih _ tr refs r h3 h2

theorem outerFold_noop (E : ExtractFun) (T : TransformFun) (col : CollectionRec)
    (mts : List String) (pairs : List (String × List String)) :
    ∀ (acc : BatchState),
      (∀ p ∈ pairs, ∀ r ∈ p.2,
        pyTruthy (acc.store ⟨col.identifier, r, none, DEFAULT_MEDIA_TYPE, p.1⟩) = true
        ∧ ∀ m ∈ mts, (acc.store ⟨col.identifier, r, none, m, p.1⟩).isSome = true) →
      pairs.foldl (fun acc2 p =>
        p.2.foldl (fun a x => prerenderRef E T col mts false p.1 x a) acc2) acc = acc := by
  induction pairs with
  | nil => intro acc _; rfl
  | cons p0 rest ih =>
    intro acc hw
    rw [List.foldl_cons,
      innerFold_noop E T col mts p0.1 p0.2 acc (hw p0 (List.mem_cons_self p0 rest))]
    exact ih acc (fun p hp => hw p (List.mem_cons_of_mem p0 hp))

theorem prerenderCollection_noop (E : ExtractFun) (T : TransformFun) (col : CollectionRec)
    (nav : NavigationRec) (mts : List String) (st : BatchState)
    (hw : ∀ p ∈ nav.references, ∀ r ∈ p.2,
      pyTruthy (st.store ⟨col.identifier, r, none, DEFAULT_MEDIA_TYPE, p.1⟩) = true
      ∧ ∀ m ∈ mts, (st.store ⟨col.identifier, r, none, m, p.1⟩).isSome = true) :
    prerenderCollection E T col nav mts false st = st :=
  outerFold_noop E T col mts nav.references st hw

/-- C4: a fully warmed corpus is a fixed point of the batch generator run
with force disabled: the run performs zero writes (the rendered counter
and the event log do not change, so in particular no save event occurs)
and returns the cache with every entry identical. -/
theorem batch_idempotent_when_warm (E : ExtractFun) (T : TransformFun)
    (docs : List (CollectionRec × NavigationRec)) (mts : List String) (store : Store)
    (n : Nat) (evs : List BatchEvent) (hw : fullyWarmed docs mts store) :
    prerenderCorpus E T docs mts false ⟨store, n, evs⟩ = ⟨store, n, evs⟩ := by
  have hgen : ∀ (ds : List (CollectionRec × NavigationRec)) (acc : BatchState),
      fullyWarmed ds mts acc.store → prerenderCorpus E T ds mts false acc = acc := by
    intro ds
    induction ds with
    | nil => intro acc _; rfl
    | cons d rest ih =>
      intro acc hw2
      unfold prerenderCorpus
      rw [List.foldl_cons,
        prerenderCollection_noop E T d.1 d.2 mts acc
          (fun p hp r hr => hw2 d (List.mem_cons_self d rest) p hp r hr)]
      exact ih acc (fun d2 hd2 => hw2 d2 (List.mem_cons_of_mem d hd2))
  exact hgen docs ⟨store, n, evs⟩ hw

/-- C4 witness: a concrete warmed single-document corpus with the html
media type is left untouched. -/
theorem batch_idempotent_when_warm_witness :
    fullyWarmed [(colW, navW)] ["html"] warmStoreW
    ∧ prerenderCorpus extractW transformW [(colW, navW)] ["html"] false ⟨warmStoreW, 0, []⟩
      = ⟨warmStoreW, 0, []⟩ :=
  ⟨by unfold fullyWarmed; decide,
    batch_idempotent_when_warm extractW transformW [(colW, navW)] ["html"]
      warmStoreW 0 [] (by unfold fullyWarmed; decide)⟩

/-- C8: with force set, the batch generator invokes extraction for every
(tree, reference) pair of the document's navigation and transformation
for every requested media type, even when cached entries already exist,
and stores the freshly produced content at the same derived key,
replacing whatever was there.  (The requested media types are the
non-default ones, as on the command line --media-type=html.) -/
theorem batch_force_regenerates (E : ExtractFun) (T : TransformFun) (col : CollectionRec)
    (nav : NavigationRec) (mts : List String) (st : BatchState) (tr : String)
    (refs : List String) (r : String) (hmts : DEFAULT_MEDIA_TYPE ∉ mts)
    (h1 : (tr, refs) ∈ nav.references) (h2 : r ∈ refs) :
    BatchEvent.extractEv col.identifier r tr
      ∈ (prerenderCollection E T col nav mts true st).events
    ∧ (prerenderCollection E T col nav mts true st).store
        ⟨col.identifier, r, none, DEFAULT_MEDIA_TYPE, tr⟩
      = some (E col.filepath r none tr)
    ∧ ∀ m ∈ mts,
        BatchEvent.transformEv col.identifier r tr m
          ∈ (prerenderCollection E T col nav mts true st).events
        ∧ (prerenderCollection E T col nav mts true st).store
            ⟨col.identifier, r, none, m, tr⟩
          = some (T m (E col.filepath r none tr)) := by
  have hdone : refDone E T col mts tr r (prerenderCollection E T col nav mts true st) :=
    outerFold_force_done E T col mts nav.references hmts st tr r (Or.inl ⟨refs, h1, h2⟩)
  have hev := outerFold_force_events E T col mts nav.references st tr refs r h1 h2
  exact ⟨hev.1, hdone.1, fun m hm => ⟨hev.2 m hm, hdone.2 m hm⟩⟩

/-- C8 witness: a concrete force run over a store already holding old
content regenerates and replaces the p1 entries. -/
theorem batch_force_regenerates_witness :
    BatchEvent.extractEv "ms001" "p1" "default"
      ∈ (prerenderCollection extractW transformW colW navW ["html"] true
          ⟨oldStoreW, 0, []⟩).events
    ∧ (prerenderCollection extractW transformW colW navW ["html"] true
        ⟨oldStoreW, 0, []⟩).store ⟨"ms001", "p1", none, "application/xml", "default"⟩
      = some (extractW colW.filepath "p1" none "default")
    ∧ ∀ m ∈ ["html"],
        BatchEvent.transformEv "ms001" "p1" "default" m
          ∈ (prerenderCollection extractW transformW colW navW ["html"] true
              ⟨oldStoreW, 0, []⟩).events
        ∧ (prerenderCollection extractW transformW colW navW ["html"] true
            ⟨oldStoreW, 0, []⟩).store ⟨"ms001", "p1", none, m, "default"⟩
          = some (transformW m (extractW colW.filepath "p1" none "default")) :=
  batch_force_regenerates extractW transformW colW navW ["html"] ⟨oldStoreW, 0, []⟩
    "default" ["p1", "p2"] "p1" (by decide) (by decide) (by decide)

/-- C10: a stored empty string behaves as a miss for every caller that
tests it by truthiness.  First conjunct: get_xml_passage_or_cache
re-extracts when the base entry holds the empty string.  Second
conjunct: the transformed-artifact lookup in custom_document_view
proceeds to extraction, transformation and a re-save when the stored
transformed and base entries are empty.  Third conjunct: the batch
generator's base-passage check re-extracts, re-saves and re-counts an
empty base entry even with force disabled.  (The batch media-type check
uses `is None` rather than truthiness, so it is not part of this
claim.) -/
theorem empty_content_is_miss :
    (∀ (E : ExtractFun) (store : Store) (col : CollectionRec) (r : String)
        (endOpt : Option String) (tr : String),
      store ⟨col.identifier, r, endOpt, DEFAULT_MEDIA_TYPE, tr⟩ = some "" →
      (get_xml_passage_or_cache true E store col r endOpt tr).passage
        = E col.filepath r endOpt tr
      ∧ (get_xml_passage_or_cache true E store col r endOpt tr).extractCalls = 1)
    ∧ (∀ (E : ExtractFun) (T : TransformFun) (mapping : List (String × String))
        (colls : List CollectionRec) (navs : List (String × NavigationRec))
        (store : Store) (rs r m : String) (tree : Option String) (col : CollectionRec)
        (nav : NavigationRec) (refsList paths : List String),
      rs ≠ "" → r ≠ "" →
      colls.find? (fun c => c.identifier == rs) = some col →
      alistFind navs col.identifier = some nav →
      alistFind nav.references (pyOr tree col.default_tree) = some refsList →
      alistFind nav.paths (pyOr tree col.default_tree) = some paths →
      paths.contains r = true →
      m ≠ "" → m ≠ DEFAULT_MEDIA_TYPE →
      store ⟨col.identifier, r, none, m, pyOr tree col.default_tree⟩ = some "" →
      store ⟨col.identifier, r, none, DEFAULT_MEDIA_TYPE, pyOr tree col.default_tree⟩
        = some "" →
      custom_document_view true E T mapping colls navs store (some rs) (some r) none none
          tree (some m)
        = ⟨.ok 200 (T m (E col.filepath r none (pyOr tree col.default_tree)))
              (mapGetD mapping m),
            saveCacheK store ⟨col.identifier, r, none, m, pyOr tree col.default_tree⟩
              (T m (E col.filepath r none (pyOr tree col.default_tree))), 1, 1, 2, 1⟩)
    ∧ (∀ (E : ExtractFun) (T : TransformFun) (col : CollectionRec) (mts : List String)
        (tr r : String) (st : BatchState),
      st.store ⟨col.identifier, r, none, DEFAULT_MEDIA_TYPE, tr⟩ = some "" →
      BatchEvent.extractEv col.identifier r tr
        ∈ (prerenderRef E T col mts false tr r st).events
      ∧ BatchEvent.saveEv ⟨col.identifier, r, none, DEFAULT_MEDIA_TYPE, tr⟩
        ∈ (prerenderRef E T col mts false tr r st).events
      ∧ st.rendered + 1 ≤ (prerenderRef E T col mts false tr r st).rendered) := by
  refine ⟨?_, ?_, ?_⟩
  · intro E store col r endOpt tr h
    constructor <;> simp [get_xml_passage_or_cache, getCacheK, h, pyTruthy]
  · intro E T mapping colls navs store rs r m tree col nav refsList paths hrs hr hcol hnav
      htr hpaths hmem hm0 hmd hempty1 hempty2
    have h1 : pyTruthy (some rs) = true := by simp [pyTruthy, hrs]
    have h2 : pyTruthy (some r) = true := by simp [pyTruthy, hr]
    have h3 : pyTruthy (none : Option String) = false := rfl
    have hmd1 : pyOr (some m) DEFAULT_MEDIA_TYPE = m := by simp [pyOr, pyTruthy, hm0]
    simp only [custom_document_view, h1, h2, h3, Option.getD_some, hcol, hnav, htr, hpaths,
      hmem, hmd1,
      Bool.not_true, Bool.false_and, Bool.and_false, Bool.true_and, Bool.and_true,
      Bool.or_false, Bool.false_or, Bool.true_or, Bool.or_true, Bool.not_false]
    simp [hmd, get_xml_passage_or_cache, getCacheK, hempty1, hempty2, h3, pyTruthy]
  · intro E T col mts tr r st h
    exact prerenderRef_empty_base_regenerates E T col mts tr r st h

/-- C10 witness: the three conjuncts applied to concrete stores holding
empty strings. -/
theorem empty_content_is_miss_witness :
    ((get_xml_passage_or_cache true extractW
        (saveCacheK emptyStore ⟨"ms001", "p1", none, "application/xml", "default"⟩ "")
        colW "p1" none "default").passage = extractW colW.filepath "p1" none "default"
      ∧ (get_xml_passage_or_cache true extractW
          (saveCacheK emptyStore ⟨"ms001", "p1", none, "application/xml", "default"⟩ "")
          colW "p1" none "default").extractCalls = 1)
    ∧ BatchEvent.extractEv "ms001" "p1" "default"
        ∈ (prerenderRef extractW transformW colW ["html"] false "default" "p1"
            ⟨saveCacheK emptyStore ⟨"ms001", "p1", none, "application/xml", "default"⟩ "",
              0, []⟩).events := by
  have ha := empty_content_is_miss.1 extractW
    (saveCacheK emptyStore ⟨"ms001", "p1", none, "application/xml", "default"⟩ "")
    colW "p1" none "default" (by decide)
  have hc := empty_content_is_miss.2.2 extractW transformW colW ["html"] "default" "p1"
    ⟨saveCacheK emptyStore ⟨"ms001", "p1", none, "application/xml", "default"⟩ "", 0, []⟩
    (by decide)
  exact ⟨ha, hc.1⟩

end TexTile
